import Mathlib

/-!
Verification of the size-bounded chunking and map-reduce review pipeline of
`scripts/ai-review.py` (repository st-VALVe/code-review-hub).

The corpus is an ordered mapping from relative file path to file text
(a Python `dict`, insertion-ordered, unique keys); we embed it as an
association list.  Sizes are UTF-8 byte lengths, exactly as the script
computes them with `len(content.encode('utf-8'))`.

The script fixes the chunk budget to the module constant `CHUNK_SIZE`
(800 000 bytes); the partitioner below takes the budget as an explicit
parameter and the pipeline applies it at `CHUNK_SIZE`.
-/

namespace AiReview

/-- A corpus entry: (relative path, file content). -/
abbrev Corpus := List (String × String)

/-- `len(content.encode('utf-8'))` — the byte size the script charges an entry. -/
def entrySize (e : String × String) : Nat := e.2.utf8ByteSize

/-- Total byte size of a corpus (`sum(len(c.encode('utf-8')) for c in files.values())`). -/
def corpusSize (files : Corpus) : Nat := (files.map entrySize).sum

/-- `CHUNK_SIZE = 800_000` from the script's configuration block. -/
def CHUNK_SIZE : Nat := 800000

/-- `max_output_tokens=8192`, the only output ceiling the script ever passes
to a provider (as a request parameter, not enforced locally). -/
def MAX_OUTPUT_TOKENS : Nat := 8192

/-- Python's `sep.join(parts)`: empty string on `[]`, the sole element on a
singleton, and elements interleaved with `sep` otherwise. -/
def pyJoin (sep : String) : List String → String
  | [] => ""
  | [x] => x
  | x :: y :: xs => x ++ sep ++ pyJoin sep (y :: xs)

/-- The per-file block `f"### File: {path}\n\x60\x60\x60\n{content}\n\x60\x60\x60"`
built inside `build_code_context`. -/
def entryPart (e : String × String) : String :=
  "### File: " ++ e.1 ++ "\n```\n" ++ e.2 ++ "\n```"

/-- `build_code_context(files)`: the per-file blocks joined with `"\n\n"`. -/
def build_code_context (files : Corpus) : String :=
  pyJoin "\n\n" (files.map entryPart)

/-- The loop body of `split_into_chunks`: `rest` is the not-yet-visited part of
the corpus, `cur` the running chunk (`current_chunk`) and `s` the running byte
counter (`current_size`).  When `current_size + file_size > CHUNK_SIZE` and the
running chunk is non-empty the script closes the running chunk, resets, and
then adds the entry to the fresh chunk; after the loop a non-empty running
chunk is flushed. -/
def splitGo (budget : Nat) : Corpus → Corpus → Nat → List Corpus
  | [], cur, _ => if cur = [] then [] else [cur]
  | e :: rest, cur, s =>
    if budget < s + entrySize e ∧ cur ≠ [] then
      cur :: splitGo budget rest [e] (entrySize e)
    else
      splitGo budget rest (cur ++ [e]) (s + entrySize e)

/-- `split_into_chunks(files)`: starts with an empty running chunk and a zero
counter. -/
def split_into_chunks (budget : Nat) (files : Corpus) : List Corpus :=
  splitGo budget files [] 0

/- ----------------------------------------------------------------- -/
/- Partitioner lemmas                                                 -/
/- ----------------------------------------------------------------- -/

theorem splitGo_flatten (budget : Nat) :
    ∀ (rest cur : Corpus) (s : Nat), (splitGo budget rest cur s).flatten = cur ++ rest := by
  intro rest
  induction rest with
  | nil =>
    intro cur s
    by_cases h : cur = [] <;> simp [splitGo, h]
  | cons e rest ih =>
    intro cur s
    by_cases h : budget < s + entrySize e ∧ cur ≠ []
    · simp [splitGo, h, ih]
    · simp [splitGo, h, ih]

theorem splitGo_ne_nil (budget : Nat) :
    ∀ (rest cur : Corpus) (s : Nat), ∀ ch ∈ splitGo budget rest cur s, ch ≠ [] := by
  intro rest
  induction rest with
  | nil =>
    intro cur s ch hch
    by_cases h : cur = [] <;> simp [splitGo, h] at hch
    subst hch; exact h
  | cons e rest ih =>
    intro cur s ch hch
    by_cases h : budget < s + entrySize e ∧ cur ≠ []
    · simp only [splitGo, if_pos h, List.mem_cons] at hch
      rcases hch with rfl | hch
      · exact h.2
      · exact ih [e] (entrySize e) ch hch
    · simp only [splitGo, if_neg h] at hch
      exact ih (cur ++ [e]) (s + entrySize e) ch hch

theorem corpusSize_append (l₁ l₂ : Corpus) :
    corpusSize (l₁ ++ l₂) = corpusSize l₁ + corpusSize l₂ := by
  simp [corpusSize]

theorem corpusSize_singleton (e : String × String) :
    corpusSize [e] = entrySize e := by
  simp [corpusSize]

theorem entrySize_le_corpusSize {e : String × String} :
    ∀ {l : Corpus}, e ∈ l → entrySize e ≤ corpusSize l := by
  intro l
  induction l with
  | nil => intro h; cases h
  | cons a l ih =>
    intro h
    rcases List.mem_cons.mp h with rfl | h
    · simp [corpusSize]
    · have h1 := ih h
      simp only [corpusSize, List.map_cons, List.sum_cons] at h1 ⊢
      omega

/-- Invariant carried through the loop: every chunk the run emits is either a
singleton or fits the budget (provided the running chunk does). -/
theorem splitGo_budget_inv (budget : Nat) :
    ∀ (rest cur : Corpus), cur.length ≤ 1 ∨ corpusSize cur ≤ budget →
      ∀ ch ∈ splitGo budget rest cur (corpusSize cur),
        ch.length ≤ 1 ∨ corpusSize ch ≤ budget := by
  intro rest
  induction rest with
  | nil =>
    intro cur hcur ch hch
    by_cases h : cur = [] <;> simp [splitGo, h] at hch
    subst hch; exact hcur
  | cons e rest ih =>
    intro cur hcur ch hch
    by_cases h : budget < corpusSize cur + entrySize e ∧ cur ≠ []
    · simp only [splitGo, if_pos h, List.mem_cons] at hch
      rcases hch with rfl | hch
      · exact hcur
      · rw [show entrySize e = corpusSize [e] from (corpusSize_singleton e).symm] at hch
        exact ih [e] (Or.inl (by simp)) ch hch
    · simp only [splitGo, if_neg h] at hch
      rw [show corpusSize cur + entrySize e = corpusSize (cur ++ [e]) by
            rw [corpusSize_append, corpusSize_singleton]] at hch
      refine ih (cur ++ [e]) ?_ ch hch
      rcases not_and_or.mp h with hle | hnil
      · right
        rw [corpusSize_append, corpusSize_singleton]
        omega
      · left
        have : cur = [] := not_not.mp hnil
        subst this; simp

theorem split_into_chunks_budget_inv (budget : Nat) (files : Corpus) :
    ∀ ch ∈ split_into_chunks budget files, ch.length ≤ 1 ∨ corpusSize ch ≤ budget := by
  intro ch hch
  have h0 : corpusSize ([] : Corpus) = 0 := rfl
  exact splitGo_budget_inv budget files [] (Or.inl (by simp)) ch (by rw [h0]; exact hch)

/-- A chunk containing an over-budget entry is that entry alone. -/
theorem split_into_chunks_oversized_mem (budget : Nat) (files : Corpus) :
    ∀ ch ∈ split_into_chunks budget files, ∀ e ∈ ch, budget < entrySize e → ch = [e] := by
  intro ch hch e he hbig
  rcases split_into_chunks_budget_inv budget files ch hch with hlen | hsz
  · match ch, he, hlen with
    | [a], he, _ =>
      rcases List.mem_singleton.mp he with rfl
      rfl
  · exact absurd ((entrySize_le_corpusSize he).trans hsz) (by omega)

/- ----------------------------------------------------------------- -/
/- pyJoin lemmas                                                      -/
/- ----------------------------------------------------------------- -/

theorem pyJoin_append (sep : String) :
    ∀ (l₁ l₂ : List String), l₁ ≠ [] → l₂ ≠ [] →
      pyJoin sep (l₁ ++ l₂) = pyJoin sep l₁ ++ sep ++ pyJoin sep l₂ := by
  intro l₁
  induction l₁ with
  | nil => intro l₂ h1 _; exact absurd rfl h1
  | cons x l₁ ih =>
    intro l₂ h1 h2
    cases l₁ with
    | nil =>
      cases l₂ with
      | nil => exact absurd rfl h2
      | cons y l₂ => simp [pyJoin]
    | cons z l₁ =>
      have hrec := ih l₂ (by simp) h2
      show pyJoin sep (x :: z :: (l₁ ++ l₂)) = pyJoin sep (x :: z :: l₁) ++ sep ++ pyJoin sep l₂
      rw [show pyJoin sep (x :: z :: (l₁ ++ l₂)) = x ++ sep ++ pyJoin sep (z :: (l₁ ++ l₂)) from rfl,
          show pyJoin sep (x :: z :: l₁) = x ++ sep ++ pyJoin sep (z :: l₁) from rfl,
          show z :: (l₁ ++ l₂) = (z :: l₁) ++ l₂ from rfl, hrec]
      simp [String.append_assoc]

theorem flatten_ne_nil_of_head_ne_nil {α : Type} (cs : List α) (css : List (List α))
    (h : cs ≠ []) : (cs :: css).flatten ≠ [] := by
  simp only [List.flatten_cons]
  intro hcontra
  exact h (List.append_eq_nil.mp hcontra).1

/-- Joining the per-chunk joins equals the join over the flattened list, as
long as no chunk is empty (no empty chunk ever injects a spurious separator). -/
theorem pyJoin_flatten (sep : String) (f : String × String → String) :
    ∀ (css : List Corpus), (∀ cs ∈ css, cs ≠ []) →
      pyJoin sep (css.map fun cs => pyJoin sep (cs.map f)) =
        pyJoin sep (css.flatten.map f) := by
  intro css
  induction css with
  | nil => intro _; rfl
  | cons cs css ih =>
    intro h
    cases css with
    | nil => simp [pyJoin]
    | cons cs' css' =>
      have hne : cs ≠ [] := h cs (by simp)
      have hne' : cs'.map f ≠ [] := by
        simp only [ne_eq, List.map_eq_nil_iff]
        exact h cs' (by simp)
      have hflat : (cs' :: css').flatten ≠ [] :=
        flatten_ne_nil_of_head_ne_nil cs' css' (h cs' (by simp))
      have hflatmap : (cs' :: css').flatten.map f ≠ [] := by
        simp only [ne_eq, List.map_eq_nil_iff]
        exact hflat
      have hrec := ih (fun c hc => h c (List.mem_cons_of_mem cs hc))
      have hmapne : cs.map f ≠ [] := by
        simp only [ne_eq, List.map_eq_nil_iff]; exact hne
      calc pyJoin sep ((cs :: cs' :: css').map fun c => pyJoin sep (c.map f))
          = pyJoin sep (cs.map f) ++ sep ++
              pyJoin sep ((cs' :: css').map fun c => pyJoin sep (c.map f)) := rfl
        _ = pyJoin sep (cs.map f) ++ sep ++ pyJoin sep ((cs' :: css').flatten.map f) := by
              rw [hrec]
        _ = pyJoin sep (cs.map f ++ (cs' :: css').flatten.map f) := by
              rw [pyJoin_append sep _ _ hmapne hflatmap]
        _ = pyJoin sep ((cs :: cs' :: css').flatten.map f) := by
              simp [List.flatten_cons, List.append_assoc]

/- ----------------------------------------------------------------- -/
/- Prompt templates (verbatim from the script; `.format` placeholders  -/
/- become explicit arguments, inserted with `toString` as Python's     -/
/- `str.format` renders integers in decimal)                           -/
/- ----------------------------------------------------------------- -/

/-- `SYSTEM_FULL`: the full-review instruction template. -/
def SYSTEM_FULL : String :=
  "You are an expert senior software architect performing a comprehensive weekly code review.\nRespond in **Russian**.\n\nAnalyse the provided codebase and produce a structured report covering:\n\n1. **SOLID Compliance** (score 1-10 per principle + overall)\n2. **Security Issues** — hardcoded secrets, injection risks, XSS, insecure data handling, missing input validation\n3. **Refactoring Opportunities** — duplication, god objects, long methods, magic values, dead code, complex conditionals\n4. **Test Coverage Gaps** — missing test files, untested critical paths, edge-cases, error-handling\n5. **Architecture & Best Practices** — design patterns, error handling, logging, configuration management\n\nUse **exactly** this output template:\n\n## 🤖 Еженедельный AI Code Review\n\n### Overall Health Score: X/10\n\n### 📐 SOLID: X/10\n| Принцип | Оценка | Комментарий |\n|---------|--------|-------------|\n| SRP | … | … |\n| OCP | … | … |\n| LSP | … | … |\n| ISP | … | … |\n| DIP | … | … |\n\n### 🔒 Безопасность: N проблем\n(список с 🚨 Critical / ❌ High / ⚠️ Medium / ℹ️ Low)\n\n### ♻️ Рефакторинг: N возможностей\n(список с приоритетом и рекомендуемым подходом)\n\n### 🧪 Тестирование: N пробелов\n(список)\n\n### 🏗️ Архитектура\n(ключевые наблюдения)\n\n### 📋 Приоритетный план действий\n1. …\n"

/-- `SYSTEM_CHUNK.format(chunk_num=i, total_chunks=total)`: the chunk-scoped
instruction template. -/
def SYSTEM_CHUNK (chunk_num total_chunks : Nat) : String :=
  "You are an expert senior software architect reviewing a PART of a codebase.\nRespond in **Russian**.\n\nThis is chunk " ++ toString chunk_num ++ " of " ++ toString total_chunks ++ " of the full codebase.\nAnalyse ONLY the files provided below. Focus on:\n\n1. **Security Issues** — hardcoded secrets, injection risks, XSS\n2. **Refactoring Opportunities** — duplication, god objects, long methods\n3. **SOLID violations** — note any violations with scores\n4. **Test Coverage Gaps** — if relevant test files are in this chunk\n5. **Architecture concerns** — patterns, error handling, logging\n\nBe concise. Use bullet points. Mark severity: 🚨 Critical / ❌ High / ⚠️ Medium / ℹ️ Low\nStart with: **Часть " ++ toString chunk_num ++ "/" ++ toString total_chunks ++ " — файлы:** (list files)\n"

/-- `SYSTEM_MERGE.format(total_chunks=total)`: the merge-scoped instruction
template. -/
def SYSTEM_MERGE (total_chunks : Nat) : String :=
  "You are an expert senior software architect.\nRespond in **Russian**.\nYou have received " ++ toString total_chunks ++ " partial code reviews of different parts of the same codebase.\nMerge them into a single, coherent, deduplicated report.\n\nUse **exactly** this output template:\n\n## 🤖 Еженедельный AI Code Review\n\n### Overall Health Score: X/10\n\n### 📐 SOLID: X/10\n| Принцип | Оценка | Комментарий |\n|---------|--------|-------------|\n| SRP | … | … |\n| OCP | … | … |\n| LSP | … | … |\n| ISP | … | … |\n| DIP | … | … |\n\n### 🔒 Безопасность: N проблем\n(merged list, deduplicated, with 🚨/❌/⚠️/ℹ️)\n\n### ♻️ Рефакторинг: N возможностей\n(merged list, deduplicated, prioritized)\n\n### 🧪 Тестирование: N пробелов\n(merged list)\n\n### 🏗️ Архитектура\n(overall observations across all chunks)\n\n### 📋 Приоритетный план действий\n1. …\n"

/-- `SYSTEM_PR`: the diff-scoped instruction template. -/
def SYSTEM_PR : String :=
  "You are an expert code reviewer analysing a pull request diff.\nRespond in **Russian**. Be concise and actionable.\n\nFocus on:\n1. **Баги / логические ошибки**\n2. **Безопасность** изменённого кода\n3. **Нарушения SOLID**\n4. **Качество кода** — читаемость, именование, сложность\n5. **Конкретные предложения** по улучшению\n\nUse **exactly** this output template:\n\n## 🔍 AI Review PR\n\n### Резюме\n(1-2 предложения)\n\n### Проблемы: N\n(список с 🚨/❌/⚠️/ℹ️)\n\n### Предложения\n(конкретные улучшения)\n\n### Вердикт: ✅ Approve / ⚠️ Needs Changes / 🚨 Critical Issues\n"

/- ----------------------------------------------------------------- -/
/- Provider Gateway transports                                        -/
/- ----------------------------------------------------------------- -/

/-- What a transport attempt does, as an oracle: the provider either returns
text, or the request raises `urllib.error.HTTPError` (carrying a status code
and an error body), or some other exception is raised (network error,
malformed response body missing the expected keys, timeout, ...). -/
inductive TransportOutcome where
  | ok (text : String)
  | httpError (code : Nat) (body : String)
  | exn (msg : String)

/-- `call_gemini_rest`: the stdlib-only REST fallback.  Every transport
failure is caught (`except urllib.error.HTTPError` / `except Exception`) and
converted to a failure-marked string; the stderr print is a side effect we do
not model. -/
def call_gemini_rest (rest : TransportOutcome) : String :=
  match rest with
  | .ok t => t
  | .httpError c _ => "❌ Gemini review failed: HTTP " ++ toString c
  | .exn m => "❌ Gemini review failed: " ++ m

/-- `call_gemini`: tries the native client library first.  `native? = none`
models the library being absent (`ImportError`, the only exception the
`try` block catches, handled by falling back to REST); `some outcome` models
the library being importable and its request having the given outcome.  An
`Except.error` is a Python exception propagating uncaught out of the
function. -/
def call_gemini (native? : Option TransportOutcome) (rest : TransportOutcome) :
    Except String String :=
  match native? with
  | none => .ok (call_gemini_rest rest)
  | some (.ok t) => .ok t
  | some (.httpError c b) => .error ("HTTP " ++ toString c ++ ": " ++ b)
  | some (.exn m) => .error m

/-- `call_claude_rest`: first obtains a GCP access token via `gcloud`
(`token` is the outcome of that subprocess; its failure is caught and
converted to text), then performs the REST request with every transport
failure caught and converted to a failure-marked string. -/
def call_claude_rest (token : Except String String) (rest : TransportOutcome) : String :=
  match token with
  | .error m => "❌ Failed to get GCP access token: " ++ m
  | .ok _ =>
    match rest with
    | .ok t => t
    | .httpError c _ => "❌ Claude review failed: HTTP " ++ toString c
    | .exn m => "❌ Claude review failed: " ++ m

/-- `call_claude`: native `AnthropicVertex` client first; only `ImportError`
is caught (falling back to REST), any other exception propagates. -/
def call_claude (native? : Option TransportOutcome) (token : Except String String)
    (rest : TransportOutcome) : Except String String :=
  match native? with
  | none => .ok (call_claude_rest token rest)
  | some (.ok t) => .ok t
  | some (.httpError c b) => .error ("HTTP " ++ toString c ++ ": " ++ b)
  | some (.exn m) => .error m

/- ----------------------------------------------------------------- -/
/- ai_call configuration resolution                                   -/
/- ----------------------------------------------------------------- -/

/-- The keyword arguments `main` forwards into `ai_call`
(`api_key=args.api_key, gcp_project=args.gcp_project,
gcp_region=args.gcp_region`); `none` models an absent / `None` value. -/
structure Kwargs where
  api_key : Option String
  gcp_project : Option String
  gcp_region : Option String

/-- The environment variables `ai_call` consults; `none` models an unset
variable. -/
structure EnvVars where
  GEMINI_API_KEY : Option String
  GCP_PROJECT_ID : Option String
  GCP_REGION : Option String

/-- Python truthiness of an optional string: `None` and `""` are falsy.
Returns the value exactly when it is truthy. -/
def pyTruthy : Option String → Option String
  | none => none
  | some s => if s = "" then none else some s

/-- Python's `a or b` on optional strings: `a` if truthy, else `b` verbatim. -/
def pyOr (a b : Option String) : Option String :=
  match pyTruthy a with
  | some s => some s
  | none => b

/-- What `ai_call` does before any provider transport runs: either
`sys.exit(msg)` — which prints the one-line diagnostic and terminates the
process with exit status 1, so no network call is ever made — or an
invocation of the provider function with the resolved configuration. -/
inductive Routed where
  | exit (msg : String)
  | geminiCall (system user api_key model : String)
  | claudeCall (system user model project_id region : String)

/-- `kwargs.get("gcp_region") or os.environ.get("GCP_REGION", "us-east5")`:
explicit parameter if truthy, else the environment variable, else the default
region.  (An environment value of `""` is used as-is: the `os.environ.get`
default applies only when the variable is unset.) -/
def claudeRegion (kw : Kwargs) (env : EnvVars) : String :=
  match pyTruthy kw.gcp_region with
  | some r => r
  | none => env.GCP_REGION.getD "us-east5"

/-- `ai_call(system, user_text, provider, model, **kwargs)`: routes to the
provider after resolving configuration, exiting on a missing required item
or an unknown provider. -/
def ai_call (system user provider model : String) (kw : Kwargs) (env : EnvVars) :
    Routed :=
  if provider = "gemini" then
    match pyTruthy (pyOr kw.api_key env.GEMINI_API_KEY) with
    | none => .exit "Error: GEMINI_API_KEY not set"
    | some key => .geminiCall system user key model
  else if provider = "claude" then
    match pyTruthy (pyOr kw.gcp_project env.GCP_PROJECT_ID) with
    | none => .exit "Error: GCP_PROJECT_ID not set"
    | some pid => .claudeCall system user model pid (claudeRegion kw env)
  else .exit ("Unknown provider: " ++ provider)

/- ----------------------------------------------------------------- -/
/- Pipeline controller                                                -/
/- ----------------------------------------------------------------- -/

/-- One Provider Gateway invocation: the `(system, user_text)` pair `ai_call`
receives.  The pipeline functions below are parameterized by an oracle
`gw : system → user_text → response_text` standing for `ai_call`'s transport
behaviour (which depends on credentials and the network and is modelled
separately above); they return the ordered list of gateway invocations they
issue together with the final report text. -/
structure GatewayCall where
  system : String
  user : String

/-- `review_single(files, mode, ...)`: one gateway call over the whole-corpus
context with `SYSTEM_FULL` (mode `'full'`) or `SYSTEM_PR` (otherwise). -/
def review_single (files : Corpus) (mode : String) (gw : String → String → String) :
    List GatewayCall × String :=
  let context := build_code_context files
  let system := if mode = "full" then SYSTEM_FULL else SYSTEM_PR
  let user := context ++ "\n\n---\nВыполни code review."
  ([⟨system, user⟩], gw system user)

/-- The body of `review_chunked`'s loop for chunk number `chunk_num`
(1-based) out of `total`. -/
def chunkCall (gw : String → String → String) (total chunk_num : Nat) (chunk : Corpus) :
    GatewayCall × String :=
  let system := SYSTEM_CHUNK chunk_num total
  let user := build_code_context chunk ++ "\n\n---\nВыполни анализ этой части кодовой базы."
  (⟨system, user⟩, gw system user)

/-- `review_chunked(files, ...)`: partition at `CHUNK_SIZE`, one gateway call
per chunk in order, then one merge call over the joined partial reviews. -/
def review_chunked (files : Corpus) (gw : String → String → String) :
    List GatewayCall × String :=
  let chunks := split_into_chunks CHUNK_SIZE files
  let total := chunks.length
  let results := chunks.enum.map fun p => chunkCall gw total (p.1 + 1) p.2
  let partial_reviews := results.map Prod.snd
  let merge_system := SYSTEM_MERGE total
  let merge_input :=
    pyJoin "\n\n---\n\n" (partial_reviews.enum.map fun p =>
      "## Partial Review " ++ toString (p.1 + 1) ++ "/" ++ toString total ++ "\n\n" ++ p.2)
    ++ "\n\n---\nОбъедини все частичные ревью в один финальный отчёт."
  (results.map Prod.fst ++ [⟨merge_system, merge_input⟩], gw merge_system merge_input)

/-- The full-review branch of `main`: exit when no files were collected,
otherwise single-shot when the total byte size fits `CHUNK_SIZE`, chunked
otherwise.  `Except.error` models `sys.exit` (non-zero exit, no report). -/
def main_full (files : Corpus) (gw : String → String → String) :
    Except String (List GatewayCall × String) :=
  if files = [] then .error "No source files found."
  else if corpusSize files ≤ CHUNK_SIZE then .ok (review_single files "full" gw)
  else .ok (review_chunked files gw)

/-- The characters Python's `str.strip()` removes (ASCII whitespace; the
claims below only quantify over strings made of these). -/
def pyIsSpace (c : Char) : Bool :=
  c = ' ' || c = '\t' || c = '\n' || c = '\r' || c = '\x0b' || c = '\x0c'

/-- `s.strip()`: drop leading and trailing whitespace. -/
def pyStrip (s : String) : String :=
  String.mk (((s.data.dropWhile pyIsSpace).reverse.dropWhile pyIsSpace).reverse)

/-- The PR branch of `main` (mode `"pr"` with a diff file): an
effectively-empty diff short-circuits to the canned report with no gateway
call; otherwise one single-shot call with the diff-scoped template. -/
def main_pr (diff : String) (gw : String → String → String) :
    List GatewayCall × String :=
  if pyStrip diff = "" then ([], "✅ Нет изменений для ревью.")
  else
    let user := diff ++ "\n\n---\nВыполни review PR."
    ([⟨SYSTEM_PR, user⟩], gw SYSTEM_PR user)

theorem dropWhile_eq_nil_of_all {p : Char → Bool} :
    ∀ {l : List Char}, l.all p = true → l.dropWhile p = [] := by
  intro l
  induction l with
  | nil => intro _; rfl
  | cons c cs ih =>
    intro h
    rw [List.all_cons, Bool.and_eq_true] at h
    simp [List.dropWhile, h.1, ih h.2]

theorem pyStrip_eq_empty_of_all_space {s : String} (h : s.data.all pyIsSpace = true) :
    pyStrip s = "" := by
  unfold pyStrip
  rw [dropWhile_eq_nil_of_all h]
  rfl

/- ----------------------------------------------------------------- -/
/- Concrete instances used by the witnesses                           -/
/- ----------------------------------------------------------------- -/

/-- A concrete gateway oracle for witnesses. -/
def gw0 : String → String → String := fun _ _ => "ok"

/-- A concrete one-file corpus for witnesses. -/
def files0 : Corpus := [("a.py", "pass")]

/- ----------------------------------------------------------------- -/
/- Claim theorems                                                     -/
/- ----------------------------------------------------------------- -/

/-- C1: for every corpus and every budget, the chunk sequence returned by
`split_into_chunks` is a partition of the corpus: concatenating the chunks in
order yields exactly the corpus entries, so each entry appears in exactly one
chunk and the order of entries across chunks equals the corpus order. -/
theorem split_into_chunks_partition (budget : Nat) (files : Corpus) :
    (split_into_chunks budget files).flatten = files := by
  simpa using splitGo_flatten budget files [] 0

/-- C2: every chunk produced by `split_into_chunks` whose entry count is at
least two, or whose single entry is not itself larger than the budget, has
total UTF-8 byte size at most the budget. -/
theorem split_into_chunks_budget_respect (budget : Nat) (files : Corpus) :
    ∀ ch ∈ split_into_chunks budget files,
      2 ≤ ch.length ∨ (∃ e, ch = [e] ∧ entrySize e ≤ budget) →
        corpusSize ch ≤ budget := by
  intro ch hch hcase
  rcases split_into_chunks_budget_inv budget files ch hch with hlen | hsz
  · rcases hcase with hlen2 | ⟨e, rfl, hle⟩
    · omega
    · rw [corpusSize_singleton]; exact hle
  · exact hsz

/-- C2 witness: a two-entry chunk under a budget of 10 bytes. -/
theorem split_into_chunks_budget_respect_witness :
    ([("a", "xx"), ("b", "yy")] : Corpus) ∈
        split_into_chunks 10 [("a", "xx"), ("b", "yy")]
      ∧ corpusSize [("a", "xx"), ("b", "yy")] ≤ 10 :=
  ⟨by decide,
   split_into_chunks_budget_respect 10 [("a", "xx"), ("b", "yy")]
     [("a", "xx"), ("b", "yy")] (by decide) (Or.inl (by decide))⟩

/-- C3: every corpus entry whose content is strictly larger than the budget
appears in the output as a chunk holding exactly that one entry — it is never
dropped, and every chunk that contains it contains nothing else. -/
theorem split_into_chunks_oversized_isolated (budget : Nat) (files : Corpus)
    (e : String × String) (hmem : e ∈ files) (hbig : budget < entrySize e) :
    (∃ ch ∈ split_into_chunks budget files, ch = [e])
      ∧ ∀ ch ∈ split_into_chunks budget files, e ∈ ch → ch = [e] := by
  constructor
  · have : e ∈ (split_into_chunks budget files).flatten := by
      rw [split_into_chunks_partition budget files]; exact hmem
    rcases List.mem_flatten.mp this with ⟨ch, hch, he⟩
    exact ⟨ch, hch, split_into_chunks_oversized_mem budget files ch hch e he hbig⟩
  · intro ch hch he
    exact split_into_chunks_oversized_mem budget files ch hch e he hbig

/-- C3 witness: a 5-byte entry against a budget of 3 bytes is isolated. -/
theorem split_into_chunks_oversized_isolated_witness :
    ("big.py", "abcde") ∈ ([("x.py", "aa"), ("big.py", "abcde")] : Corpus)
      ∧ 3 < entrySize ("big.py", "abcde")
      ∧ ∃ ch ∈ split_into_chunks 3 [("x.py", "aa"), ("big.py", "abcde")],
          ch = [("big.py", "abcde")] :=
  ⟨by decide, by decide,
   (split_into_chunks_oversized_isolated 3 [("x.py", "aa"), ("big.py", "abcde")]
     ("big.py", "abcde") (by decide) (by decide)).1⟩

/-- C4: on a non-empty corpus whose total byte size is at most `CHUNK_SIZE`,
`main` takes the single-shot path: exactly one gateway call, over the whole
corpus with the full-review template `SYSTEM_FULL`, whose response is the
final report; the partitioner is never invoked (`review_single` contains no
call to `split_into_chunks`). -/
theorem main_full_single_shot (gw : String → String → String) (files : Corpus)
    (h1 : files ≠ []) (h2 : corpusSize files ≤ CHUNK_SIZE) :
    main_full files gw =
      .ok ([⟨SYSTEM_FULL, build_code_context files ++ "\n\n---\nВыполни code review."⟩],
        gw SYSTEM_FULL (build_code_context files ++ "\n\n---\nВыполни code review.")) := by
  simp [main_full, h1, h2, review_single]

/-- C4 witness: a 4-byte corpus takes the single-shot path. -/
theorem main_full_single_shot_witness :
    (files0 ≠ [] ∧ corpusSize files0 ≤ CHUNK_SIZE)
      ∧ main_full files0 gw0 =
          .ok ([⟨SYSTEM_FULL, build_code_context files0 ++ "\n\n---\nВыполни code review."⟩],
            gw0 SYSTEM_FULL (build_code_context files0 ++ "\n\n---\nВыполни code review.")) :=
  ⟨⟨by decide, by decide⟩, main_full_single_shot gw0 files0 (by decide) (by decide)⟩

/-- C7: in diff (PR) mode, a diff file whose content is only whitespace
(including the empty string) produces exactly the canned report
`"✅ Нет изменений для ревью."` and zero gateway calls. -/
theorem main_pr_whitespace_short_circuit (gw : String → String → String)
    (diff : String) (h : diff.data.all pyIsSpace = true) :
    main_pr diff gw = ([], "✅ Нет изменений для ревью.") := by
  simp [main_pr, pyStrip_eq_empty_of_all_space h]

/-- C7 witness: the spec's scenario, diff content `"   \n"`. -/
theorem main_pr_whitespace_short_circuit_witness :
    ("   \n" : String).data.all pyIsSpace = true
      ∧ main_pr "   \n" gw0 = ([], "✅ Нет изменений для ревью.") :=
  ⟨by decide, main_pr_whitespace_short_circuit gw0 "   \n" (by decide)⟩

/-- C9: joining the per-chunk prompt contexts with `"\n\n"`, in chunk order,
yields exactly `build_code_context` of the whole corpus: the prompt-context
builder is a homomorphism with respect to the partition (for any budget, so
in particular for the script's `CHUNK_SIZE`). -/
theorem build_code_context_chunk_hom (budget : Nat) (files : Corpus) :
    pyJoin "\n\n" ((split_into_chunks budget files).map build_code_context) =
      build_code_context files := by
  unfold build_code_context
  rw [show (split_into_chunks budget files).map (fun cs => pyJoin "\n\n" (cs.map entryPart)) =
        (split_into_chunks budget files).map
          (fun cs => pyJoin "\n\n" (List.map entryPart cs)) from rfl]
  rw [pyJoin_flatten "\n\n" entryPart (split_into_chunks budget files)
      (fun cs hcs => splitGo_ne_nil budget files [] 0 cs hcs)]
  rw [split_into_chunks_partition budget files]

/-- C10: no chunk is ever empty; consequently on a non-empty corpus the
chunked path reports a chunk total of at least 1 and issues exactly
`total + 1` gateway calls (one per chunk plus the merge call). -/
theorem chunks_nonempty_call_count (gw : String → String → String)
    (budget : Nat) (files : Corpus) :
    (∀ ch ∈ split_into_chunks budget files, ch ≠ [])
      ∧ (files ≠ [] →
          1 ≤ (split_into_chunks CHUNK_SIZE files).length
            ∧ (review_chunked files gw).1.length =
                (split_into_chunks CHUNK_SIZE files).length + 1) := by
  constructor
  · exact fun ch hch => splitGo_ne_nil budget files [] 0 ch hch
  · intro hne
    constructor
    · by_contra hlt
      have hlen : (split_into_chunks CHUNK_SIZE files).length = 0 := by omega
      have hnil : split_into_chunks CHUNK_SIZE files = [] := List.length_eq_zero.mp hlen
      have := split_into_chunks_partition CHUNK_SIZE files
      rw [hnil] at this
      exact hne this.symm
    · simp [review_chunked]

/-- C10 witness: one chunk plus one merge call on a tiny corpus. -/
theorem chunks_nonempty_call_count_witness :
    files0 ≠ []
      ∧ 1 ≤ (split_into_chunks CHUNK_SIZE files0).length
      ∧ (review_chunked files0 gw0).1.length =
          (split_into_chunks CHUNK_SIZE files0).length + 1 :=
  ⟨by decide, (chunks_nonempty_call_count gw0 CHUNK_SIZE files0).2 (by decide)⟩

theorem pyTruthy_fix {a : Option String} {k : String} (h : pyTruthy a = some k) :
    pyTruthy (some k) = some k := by
  match a with
  | none => exact absurd h (by simp [pyTruthy])
  | some s =>
    simp only [pyTruthy] at h ⊢
    by_cases hs : s = ""
    · rw [if_pos hs] at h; cases h
    · rw [if_neg hs] at h
      rw [Option.some_inj] at h
      subst h
      rw [if_neg hs]

/-- C8: `ai_call` resolves each required configuration item from the explicit
parameter first and the named environment variable second (for Claude's
region, with the fixed default `"us-east5"` when the variable is unset); when
a required item (the Gemini API key, the GCP project id) is available from
neither source, the run terminates via `sys.exit` — non-zero exit status,
one-line diagnostic — without producing any provider invocation, hence before
any network call. -/
theorem ai_call_credential_resolution (system user model : String)
    (kw : Kwargs) (env : EnvVars) :
    (∀ k, pyTruthy kw.api_key = some k →
        ai_call system user "gemini" model kw env = .geminiCall system user k model)
  ∧ (pyTruthy kw.api_key = none → ∀ k, pyTruthy env.GEMINI_API_KEY = some k →
        ai_call system user "gemini" model kw env = .geminiCall system user k model)
  ∧ (pyTruthy kw.api_key = none → pyTruthy env.GEMINI_API_KEY = none →
        ai_call system user "gemini" model kw env = .exit "Error: GEMINI_API_KEY not set")
  ∧ (∀ p, pyTruthy kw.gcp_project = some p →
        ai_call system user "claude" model kw env =
          .claudeCall system user model p (claudeRegion kw env))
  ∧ (pyTruthy kw.gcp_project = none → ∀ p, pyTruthy env.GCP_PROJECT_ID = some p →
        ai_call system user "claude" model kw env =
          .claudeCall system user model p (claudeRegion kw env))
  ∧ (pyTruthy kw.gcp_project = none → pyTruthy env.GCP_PROJECT_ID = none →
        ai_call system user "claude" model kw env = .exit "Error: GCP_PROJECT_ID not set")
  ∧ (∀ r, pyTruthy kw.gcp_region = some r → claudeRegion kw env = r)
  ∧ (pyTruthy kw.gcp_region = none →
        claudeRegion kw env = env.GCP_REGION.getD "us-east5") := by
  refine ⟨?_, ?_, ?_, ?_, ?_, ?_, ?_, ?_⟩
  · intro k hk
    simp [ai_call, pyOr, hk, pyTruthy_fix hk]
  · intro hnone k hk
    simp [ai_call, pyOr, hnone, hk, pyTruthy_fix hk]
  · intro hnone henv
    simp [ai_call, pyOr, hnone, henv]
  · intro p hp
    simp [ai_call, pyOr, hp, pyTruthy_fix hp]
  · intro hnone p hp
    simp [ai_call, pyOr, hnone, hp, pyTruthy_fix hp]
  · intro hnone henv
    simp [ai_call, pyOr, hnone, henv]
  · intro r hr
    simp [claudeRegion, hr]
  · intro hnone
    simp [claudeRegion, hnone]

/-- C8 witness: with no parameter and no environment variable, the Gemini
route exits with the diagnostic and no provider invocation. -/
theorem ai_call_credential_resolution_witness :
    ai_call "s" "u" "gemini" "m" ⟨none, none, none⟩ ⟨none, none, none⟩ =
      .exit "Error: GEMINI_API_KEY not set" :=
  (ai_call_credential_resolution "s" "u" "m" ⟨none, none, none⟩ ⟨none, none, none⟩).2.2.1
    rfl rfl

/-- C5 counterexample: on the native (client-library) transport an HTTP
failure is NOT converted to a failure-marked string — it propagates out of
`call_gemini` as an exception (`Except.error`), which in the chunked pipeline
would abort the run; the claim that a transport failure on either transport
becomes failure-marked text is therefore false. -/
theorem call_gemini_native_error_propagates :
    call_gemini (some (.httpError 500 "Internal Server Error")) (.ok "unreached") =
      .error "HTTP 500: Internal Server Error" := rfl

/-- C5 amended: transport failures are caught and converted into
failure-glyph-prefixed report text only on the REST fallback transport (and,
for Claude, at token acquisition); the native transport catches only
`ImportError`, handled by falling back to REST — any other native-transport
failure propagates as an exception. -/
theorem gateway_rest_failures_marked (c : Nat) (b m tok : String)
    (rest restC : TransportOutcome) (tokE : Except String String) :
    call_gemini_rest (.httpError c b) = "❌ Gemini review failed: HTTP " ++ toString c
  ∧ call_gemini_rest (.exn m) = "❌ Gemini review failed: " ++ m
  ∧ call_gemini none rest = .ok (call_gemini_rest rest)
  ∧ call_claude_rest (.ok tok) (.httpError c b) = "❌ Claude review failed: HTTP " ++ toString c
  ∧ call_claude_rest (.ok tok) (.exn m) = "❌ Claude review failed: " ++ m
  ∧ call_claude_rest (.error m) rest = "❌ Failed to get GCP access token: " ++ m
  ∧ call_claude none tokE restC = .ok (call_claude_rest tokE restC) :=
  ⟨rfl, rfl, rfl, rfl, rfl, rfl, rfl⟩

/-- A provider output longer than any ceiling named in the script. -/
def longOutput : String := String.mk (List.replicate 9000 'x')

theorem longOutput_length : longOutput.length = 9000 := by
  rw [show longOutput.length = (List.replicate 9000 'x').length from rfl]
  exact List.length_replicate 9000 'x'

/-- C6 counterexample: the Gateway performs no truncation and appends no
marker — an output text longer than `MAX_OUTPUT_TOKENS` (8192, the only
provider output ceiling appearing in the script, and only as a request
parameter) is returned verbatim, unmodified. -/
theorem gateway_no_truncation_cex :
    call_gemini (some (.ok longOutput)) (.exn "ignored") = .ok longOutput
      ∧ MAX_OUTPUT_TOKENS < longOutput.length := by
  refine ⟨rfl, ?_⟩
  rw [longOutput_length]
  norm_num [MAX_OUTPUT_TOKENS]

/-- C6 amended: the Gateway returns the provider's output text verbatim on
every successful call, whatever its length — no local truncation, no marker;
the only output-size control is the `max_output_tokens = 8192` request
parameter passed to the provider. -/
theorem gateway_returns_output_verbatim (t tok : String)
    (rest restC : TransportOutcome) :
    call_gemini (some (.ok t)) rest = .ok t
  ∧ call_gemini_rest (.ok t) = t
  ∧ call_claude (some (.ok t)) (.ok tok) restC = .ok t
  ∧ call_claude_rest (.ok tok) (.ok t) = t :=
  ⟨rfl, rfl, rfl, rfl⟩

end AiReview
